import Mathlib

/-!
# Verification of the honest-tax-core engine

Shallow embedding of the tax computation engine of `honest-tax-core`
(crates/honest-tax-core/src).  The `Money` type of the source
(`UsdAmount`, a wrapper around `rust_decimal::Decimal` with exact
arithmetic and explicit rounding) is modelled by `ℚ`: all the arithmetic
the embedded operations perform (addition, subtraction, multiplication by
a decimal rate, comparison) is exact on `Decimal` for the magnitudes the
engine handles, and the order on `UsdAmount` is the numeric order.
Strings are modelled by Lean `String`s; the Rust code indexes ASCII
strings by bytes, which coincides with the character indexing used here.
-/

namespace HonestTax

/-- `Money` (`UsdAmount` in `usd_amount.rs`): exact decimal amounts,
modelled as rationals. -/
abbrev Money := ℚ

/-- `UsdAmount::saturating_sub` (usd_amount.rs): returns zero instead of a
negative value. -/
def saturatingSub (a b : Money) : Money :=
  if b < a then a - b else 0

/-- `FilingStatus` (types.rs). -/
inductive FilingStatus where
  | Single
  | MarriedFilingJointly
  | MarriedFilingSeparately
  | HeadOfHousehold
  | QualifyingSurvivingSpouse
  deriving DecidableEq, Repr

/-- `TaxBracket` (traits/rules.rs): rate, inclusive lower bound, optional
upper bound (`none` = top bracket). -/
structure TaxBracket where
  rate : ℚ
  lo : Money
  hi : Option Money
  deriving DecidableEq, Repr

/-- `PhaseOut` (traits/rules.rs). -/
structure PhaseOut where
  single_threshold : Money
  joint_threshold : Money
  mfs_threshold : Money
  rate : ℚ
  deriving DecidableEq, Repr

/-- `PhaseOut::threshold_for` (traits/rules.rs). -/
def PhaseOut.threshold_for (p : PhaseOut) : FilingStatus → Money
  | .Single | .HeadOfHousehold => p.single_threshold
  | .MarriedFilingJointly | .QualifyingSurvivingSpouse => p.joint_threshold
  | .MarriedFilingSeparately => p.mfs_threshold

/-- `PhaseOut::reduction` (traits/rules.rs). -/
def PhaseOut.reduction (p : PhaseOut) (status : FilingStatus) (agi : Money) : Money :=
  if agi ≤ p.threshold_for status then 0
  else (agi - p.threshold_for status) * p.rate

/-- `SeniorBonusDeduction` (traits/rules.rs); `amount_per_person` is a `u32`. -/
structure SeniorBonusDeduction where
  amount_per_person : ℕ
  phase_out : PhaseOut
  deriving DecidableEq, Repr

/-- The loop body of `TaxRules::calculate_tax` (traits/rules.rs lines
92–115): walks the bracket list with a running previous ceiling and an
accumulator, stopping once the income no longer exceeds the ceiling. -/
def calcTaxLoop (income : Money) : List TaxBracket → Money → Money → Money
  | [], _, total => total
  | b :: rest, prevMax, total =>
    if income ≤ prevMax then total
    else
      let bracketIncome :=
        match b.hi with
        | some mx => min income mx - prevMax
        | none => income - prevMax
      let total' := if 0 < bracketIncome then total + bracketIncome * b.rate else total
      calcTaxLoop income rest (b.hi.getD income) total'

/-- Year-scoped rule data: the constants a `TaxRules` implementation
(rules/y2025.rs) provides to the default methods of the trait. -/
structure TaxRulesData where
  year : ℕ
  brackets : FilingStatus → List TaxBracket
  standard_deduction_base : FilingStatus → Money
  standard_deduction_age_65 : FilingStatus → Money
  standard_deduction_blind : FilingStatus → Money
  senior_bonus_deduction : Option SeniorBonusDeduction
  child_tax_credit_max : Money
  additional_child_tax_credit_max : Money
  actc_earned_income_threshold : Money
  child_tax_credit_phase_out : PhaseOut
  credit_for_other_dependents : Money
  qbi_deduction_rate : ℚ

/-- `TaxRules::calculate_tax` (traits/rules.rs): bracket walk starting
from a zero ceiling and zero accumulated tax. -/
def calculate_tax (r : TaxRulesData) (status : FilingStatus) (taxable_income : Money) : Money :=
  calcTaxLoop taxable_income (r.brackets status) 0 0

/-- `TaxRules::standard_deduction` (traits/rules.rs lines 136–191). -/
def standard_deduction (r : TaxRulesData) (status : FilingStatus)
    (taxpayer_65_or_older taxpayer_blind spouse_65_or_older spouse_blind : Bool)
    (agi : Money) : Money :=
  let d0 := r.standard_deduction_base status
  let d1 := if taxpayer_65_or_older then d0 + r.standard_deduction_age_65 status else d0
  let d2 := if taxpayer_blind then d1 + r.standard_deduction_blind status else d1
  let d3 :=
    if status = .MarriedFilingJointly then
      let da := if spouse_65_or_older then d2 + r.standard_deduction_age_65 status else d2
      if spouse_blind then da + r.standard_deduction_blind status else da
    else d2
  match r.senior_bonus_deduction with
  | none => d3
  | some bonus =>
    let senior_count : ℕ :=
      (if taxpayer_65_or_older then 1 else 0) +
      (if status = .MarriedFilingJointly ∧ spouse_65_or_older then 1 else 0)
    if 0 < senior_count then
      let threshold := bonus.phase_out.threshold_for status
      if agi ≤ threshold then
        d3 + (bonus.amount_per_person : ℚ) * (senior_count : ℚ)
      else
        let reduction := bonus.phase_out.reduction status agi
        let max_bonus : Money := ((bonus.amount_per_person * senior_count : ℕ) : ℚ)
        d3 + saturatingSub max_bonus reduction
    else d3

/-- `Rules2025::build_single_brackets` (rules/y2025.rs). -/
def singleBrackets2025 : List TaxBracket :=
  [ ⟨10/100, 0, some 11925⟩,
    ⟨12/100, 11925, some 48475⟩,
    ⟨22/100, 48475, some 103350⟩,
    ⟨24/100, 103350, some 197300⟩,
    ⟨32/100, 197300, some 250525⟩,
    ⟨35/100, 250525, some 626350⟩,
    ⟨37/100, 626350, none⟩ ]

/-- `Rules2025::build_mfj_brackets` (rules/y2025.rs). -/
def mfjBrackets2025 : List TaxBracket :=
  [ ⟨10/100, 0, some 23850⟩,
    ⟨12/100, 23850, some 96950⟩,
    ⟨22/100, 96950, some 206700⟩,
    ⟨24/100, 206700, some 394600⟩,
    ⟨32/100, 394600, some 501050⟩,
    ⟨35/100, 501050, some 751600⟩,
    ⟨37/100, 751600, none⟩ ]

/-- `Rules2025::build_mfs_brackets` (rules/y2025.rs). -/
def mfsBrackets2025 : List TaxBracket :=
  [ ⟨10/100, 0, some 11925⟩,
    ⟨12/100, 11925, some 48475⟩,
    ⟨22/100, 48475, some 103350⟩,
    ⟨24/100, 103350, some 197300⟩,
    ⟨32/100, 197300, some 250525⟩,
    ⟨35/100, 250525, some 375800⟩,
    ⟨37/100, 375800, none⟩ ]

/-- `Rules2025::build_hoh_brackets` (rules/y2025.rs). -/
def hohBrackets2025 : List TaxBracket :=
  [ ⟨10/100, 0, some 17000⟩,
    ⟨12/100, 17000, some 64850⟩,
    ⟨22/100, 64850, some 103350⟩,
    ⟨24/100, 103350, some 197300⟩,
    ⟨32/100, 197300, some 250500⟩,
    ⟨35/100, 250500, some 626350⟩,
    ⟨37/100, 626350, none⟩ ]

/-- `Rules2025::senior_bonus_deduction` (rules/y2025.rs lines 250–261). -/
def seniorBonus2025 : SeniorBonusDeduction :=
  ⟨6000, ⟨75000, 150000, 75000, 6/100⟩⟩

/-- The `Rules2025` instance (rules/y2025.rs): brackets by status
(`TaxRules::brackets`), deduction constants, senior bonus, CTC constants. -/
def rules2025 : TaxRulesData where
  year := 2025
  brackets
    | .Single => singleBrackets2025
    | .MarriedFilingJointly | .QualifyingSurvivingSpouse => mfjBrackets2025
    | .MarriedFilingSeparately => mfsBrackets2025
    | .HeadOfHousehold => hohBrackets2025
  standard_deduction_base
    | .Single | .MarriedFilingSeparately => 15750
    | .MarriedFilingJointly | .QualifyingSurvivingSpouse => 31500
    | .HeadOfHousehold => 23625
  standard_deduction_age_65
    | .Single | .HeadOfHousehold => 2000
    | .MarriedFilingJointly | .MarriedFilingSeparately | .QualifyingSurvivingSpouse => 1600
  standard_deduction_blind
    | .Single | .HeadOfHousehold => 2000
    | .MarriedFilingJointly | .MarriedFilingSeparately | .QualifyingSurvivingSpouse => 1600
  senior_bonus_deduction := some seniorBonus2025
  child_tax_credit_max := 2200
  additional_child_tax_credit_max := 1700
  actc_earned_income_threshold := 2500
  child_tax_credit_phase_out := ⟨200000, 400000, 200000, 5/100⟩
  credit_for_other_dependents := 500
  qbi_deduction_rate := 20/100



/-! ## Supported years and the rules loader (types.rs, rules/loader.rs) -/

/-- `MIN_SUPPORTED_YEAR` (types.rs). -/
def MIN_SUPPORTED_YEAR : ℕ := 2025

/-- `MAX_SUPPORTED_YEAR` (types.rs). -/
def MAX_SUPPORTED_YEAR : ℕ := 2025

/-- `TaxError` (error.rs).  Only the constructors the embedded operations
produce are included: `UnsupportedTaxYear(year, min, max)` and
`InvalidValue { field, reason }`. -/
inductive TaxError where
  | UnsupportedTaxYear (year lo hi : ℕ)
  | InvalidValue (field reason : String)
  deriving DecidableEq, Repr

/-- `RulesLoader::load` (rules/loader.rs lines 25–34): match on the year;
`2025` yields the `Rules2025` instance, anything else the
`UnsupportedTaxYear` error carrying the requested year and both bounds. -/
def RulesLoader.load (year : ℕ) : Except TaxError TaxRulesData :=
  if year = 2025 then .ok rules2025
  else .error (.UnsupportedTaxYear year MIN_SUPPORTED_YEAR MAX_SUPPORTED_YEAR)

/-- `RulesLoader::is_supported` (rules/loader.rs): closed-interval check. -/
def RulesLoader.is_supported (year : ℕ) : Bool :=
  MIN_SUPPORTED_YEAR ≤ year && year ≤ MAX_SUPPORTED_YEAR

/-! ## Dependents (types.rs) -/

/-- `DependentRelationship` (types.rs). -/
inductive DependentRelationship where
  | Son | Daughter | Stepchild | FosterChild
  | Brother | Sister | Stepbrother | Stepsister
  | HalfBrother | HalfSister | Grandchild | Niece | Nephew
  | Parent | Grandparent | AuntUncle | Other
  deriving DecidableEq, Repr

/-- `Dependent` (types.rs); `age` and `months_lived_with_taxpayer` are `u8`. -/
structure Dependent where
  first_name : String
  last_name : String
  ssn : String
  relationship : DependentRelationship
  age : ℕ
  months_lived_with_taxpayer : ℕ
  is_disabled : Bool
  is_student : Bool

/-- `Dependent::is_qualifying_child_relationship` (types.rs lines 126–143). -/
def Dependent.is_qualifying_child_relationship (d : Dependent) : Bool :=
  match d.relationship with
  | .Son | .Daughter | .Stepchild | .FosterChild
  | .Brother | .Sister | .Stepbrother | .Stepsister
  | .HalfBrother | .HalfSister | .Grandchild | .Niece | .Nephew => true
  | _ => false

/-- `Dependent::qualifies_for_ctc` (types.rs lines 111–116). -/
def Dependent.qualifies_for_ctc (d : Dependent) : Bool :=
  decide (d.age < 17)
    && decide (6 ≤ d.months_lived_with_taxpayer)
    && d.is_qualifying_child_relationship
    && !d.ssn.isEmpty

/-- `Dependent::qualifies_for_odc` (types.rs lines 121–123). -/
def Dependent.qualifies_for_odc (d : Dependent) : Bool :=
  !d.qualifies_for_ctc

/-! ## Taxpayer age (types.rs)

The Rust code slices the `YYYY-MM-DD` string by byte ranges and parses the
pieces with `str::parse::<u16>` / `str::parse::<u8>`.  For ASCII strings
byte indices coincide with the character indices used here. -/

/-- Value of a digit string (most significant digit first). -/
def digitsVal (cs : List Char) : ℕ :=
  cs.foldl (fun n c => n * 10 + (c.toNat - 48)) 0

/-- Parse of a non-empty all-digit character list. -/
def parseNatDigits (cs : List Char) : Option ℕ :=
  if cs ≠ [] ∧ cs.all Char.isDigit = true then some (digitsVal cs) else none

/-- Rust `str::parse` for an unsigned integer type with exclusive upper
bound `bound`: at most one leading `+`, then decimal digits, in range. -/
def rustParseNat (cs : List Char) (bound : ℕ) : Option ℕ :=
  let ds := if cs.head? = some '+' then cs.tail else cs
  match parseNatDigits ds with
  | some n => if n < bound then some n else none
  | none => none

/-- Rust `str::get(a..b)` on an ASCII string: `none` when `b` is past the
end, otherwise the half-open slice. -/
def sliceGet (cs : List Char) (a b : ℕ) : Option (List Char) :=
  if b ≤ cs.length then some ((cs.drop a).take (b - a)) else none

/-- `TaxpayerInfo` (types.rs). -/
structure TaxpayerInfo where
  first_name : String
  last_name : String
  ssn : String
  date_of_birth : String
  is_blind : Bool

/-- `TaxpayerInfo::age_at_year_end` (types.rs lines 165–184).
`tax_year.saturating_sub(birth_year)` on `u16` is truncated subtraction on
`ℕ`, and the `as u8` cast is reduction mod 256.  The
`birth_month == 12 && birth_day == 31` branch of the source is a no-op
comment branch; only `birth_month > 12` leads to `None`. -/
def TaxpayerInfo.age_at_year_end (t : TaxpayerInfo) (tax_year : ℕ) : Option ℕ := do
  let ys ← sliceGet t.date_of_birth.data 0 4
  let birth_year ← rustParseNat ys 65536
  let ms ← sliceGet t.date_of_birth.data 5 7
  let birth_month ← rustParseNat ms 256
  let ds ← sliceGet t.date_of_birth.data 8 10
  let birth_day ← rustParseNat ds 256
  let age := (tax_year - birth_year) % 256
  if birth_month = 12 ∧ birth_day = 31 then
    some age
  else if 12 < birth_month then
    none
  else
    some age

/-- `TaxpayerInfo::is_65_or_older` (types.rs lines 189–193). -/
def TaxpayerInfo.is_65_or_older (t : TaxpayerInfo) (tax_year : ℕ) : Bool :=
  match t.age_at_year_end tax_year with
  | some age => decide (65 ≤ age)
  | none => false

/-- Birth year read off a `YYYY-MM-DD` string (first four characters). -/
def dobYearOf (dob : String) : ℕ := digitsVal (dob.data.take 4)

/-- Birth month read off a `YYYY-MM-DD` string (characters 5–6). -/
def dobMonthOf (dob : String) : ℕ := digitsVal ((dob.data.drop 5).take 2)

/-- Birth day read off a `YYYY-MM-DD` string (characters 8–9). -/
def dobDayOf (dob : String) : ℕ := digitsVal ((dob.data.drop 8).take 2)

/-- A well-formed `YYYY-MM-DD` date-of-birth string: ten characters,
digits in the date positions, dashes between them, and a plausible
calendar month and day. -/
def WellFormedDOB (dob : String) : Prop :=
  dob.data.length = 10 ∧
  (dob.data.take 4).all Char.isDigit = true ∧
  dob.data.get? 4 = some '-' ∧
  ((dob.data.drop 5).take 2).all Char.isDigit = true ∧
  dob.data.get? 7 = some '-' ∧
  ((dob.data.drop 8).take 2).all Char.isDigit = true ∧
  1 ≤ dobMonthOf dob ∧ dobMonthOf dob ≤ 12 ∧
  1 ≤ dobDayOf dob ∧ dobDayOf dob ≤ 31

instance (dob : String) : Decidable (WellFormedDOB dob) := by
  unfold WellFormedDOB; infer_instance

/-! ## Validation error collection (error.rs) -/

/-- `ValidationSeverity` (error.rs). -/
inductive ValidationSeverity where
  | Error
  | Warning
  deriving DecidableEq, Repr

/-- `ValidationError` (error.rs). -/
structure ValidationError where
  field : String
  message : String
  severity : ValidationSeverity
  deriving DecidableEq, Repr

/-- `ValidationErrors::has_errors` (error.rs): any Error-severity entry. -/
def hasValidationErrors (errs : List ValidationError) : Bool :=
  errs.any fun e => e.severity = .Error

/-- `ValidationErrors::into_result` (error.rs lines 166–177): fails with a
single `InvalidValue` joining the Error-severity messages with `"; "`. -/
def validationIntoResult (errs : List ValidationError) : Except TaxError Unit :=
  if hasValidationErrors errs then
    .error (.InvalidValue "multiple"
      (String.intercalate "; "
        ((errs.filter fun e => e.severity = .Error).map fun e => e.message)))
  else
    .ok ()

/-! ## Form W-2 (inputs/w2.rs) -/

/-- `W2Box12` (inputs/w2.rs). -/
structure W2Box12 where
  code : String
  amount : Money

/-- `W2StateInfo` (inputs/w2.rs). -/
structure W2StateInfo where
  state : String
  employer_state_id : String
  state_wages : Money
  state_tax_withheld : Money

/-- `W2LocalInfo` (inputs/w2.rs). -/
structure W2LocalInfo where
  local_wages : Money
  local_tax_withheld : Money
  locality_name : String

/-- `W2` (inputs/w2.rs). -/
structure W2 where
  id : String
  tax_year : ℕ
  employer_ein : String
  employer_name : String
  employee_ssn : String
  employee_first_name : String
  employee_last_name : String
  box_1_wages : Money
  box_2_federal_tax_withheld : Money
  box_3_social_security_wages : Money
  box_4_social_security_tax_withheld : Money
  box_5_medicare_wages : Money
  box_6_medicare_tax_withheld : Money
  box_7_social_security_tips : Money
  box_8_allocated_tips : Money
  box_10_dependent_care_benefits : Money
  box_11_nonqualified_plans : Money
  box_12 : List W2Box12
  box_13_statutory_employee : Bool
  box_13_retirement_plan : Bool
  box_13_third_party_sick_pay : Bool
  state_info : List W2StateInfo
  local_info : List W2LocalInfo

/-- `W2::is_valid_ssn` (inputs/w2.rs lines 235–245): `XXX-XX-XXXX`. -/
def is_valid_ssn (ssn : String) : Bool :=
  let chars := ssn.data
  if chars.length ≠ 11 then false
  else
    (chars.take 3).all Char.isDigit
      && chars.get? 3 == some '-'
      && ((chars.drop 4).take 2).all Char.isDigit
      && chars.get? 6 == some '-'
      && ((chars.drop 7).take 4).all Char.isDigit

/-- `W2::is_valid_ein` (inputs/w2.rs lines 248–256): `XX-XXXXXXX`. -/
def is_valid_ein (ein : String) : Bool :=
  let chars := ein.data
  if chars.length ≠ 10 then false
  else
    (chars.take 2).all Char.isDigit
      && chars.get? 2 == some '-'
      && ((chars.drop 3).take 7).all Char.isDigit

/-- `W2::is_valid_box_12_code` (inputs/w2.rs lines 259–291). -/
def is_valid_box_12_code (code : String) : Bool :=
  ["A", "B", "C", "D", "E", "F", "G", "H", "J", "K", "L", "M", "N",
   "P", "Q", "R", "S", "T", "V", "W", "Y", "Z",
   "AA", "BB", "DD", "EE", "FF", "GG", "HH"].contains code

/-- The Box-12 leg of `W2::validate` (inputs/w2.rs lines 222–229): one
Error entry per invalid code, indexed from `i`. -/
def box12Errors (i : ℕ) : List W2Box12 → List ValidationError
  | [] => []
  | b :: rest =>
    (if is_valid_box_12_code b.code = false then
       [⟨"box_12[" ++ toString i ++ "].code",
         "Invalid Box 12 code: " ++ b.code, .Error⟩]
     else [])
    ++ box12Errors (i + 1) rest

/-- The accumulation pass of `W2::validate` (inputs/w2.rs lines 191–231):
the `ValidationErrors` list built before `into_result` is called, in
source order. -/
def W2.collectValidationErrors (w : W2) : List ValidationError :=
  (if w.employee_ssn ≠ "" ∧ is_valid_ssn w.employee_ssn = false then
     [⟨"employee_ssn", "Invalid SSN format (expected XXX-XX-XXXX)", .Error⟩]
   else [])
  ++ (if w.employer_ein ≠ "" ∧ is_valid_ein w.employer_ein = false then
       [⟨"employer_ein", "Invalid EIN format (expected XX-XXXXXXX)", .Error⟩]
     else [])
  ++ (if w.box_1_wages < 0 then
       [⟨"box_1_wages", "Wages cannot be negative", .Error⟩]
     else [])
  ++ (if w.box_2_federal_tax_withheld < 0 then
       [⟨"box_2_federal_tax_withheld", "Federal tax withheld cannot be negative", .Error⟩]
     else [])
  ++ (if w.box_3_social_security_wages < 0 then
       [⟨"box_3_social_security_wages", "Social Security wages cannot be negative", .Error⟩]
     else [])
  ++ box12Errors 0 w.box_12

/-- `W2::validate` (inputs/w2.rs lines 191–232). -/
def W2.validate (w : W2) : Except TaxError Unit :=
  validationIntoResult w.collectValidationErrors

/-- `W2::total_state_tax_withheld` (inputs/w2.rs lines 294–296):
`iter().map(...).sum()`, a left fold from zero. -/
def W2.total_state_tax_withheld (w : W2) : Money :=
  w.state_info.foldl (fun acc s => acc + s.state_tax_withheld) 0

/-- `W2::total_local_tax_withheld` (inputs/w2.rs lines 299–301). -/
def W2.total_local_tax_withheld (w : W2) : Money :=
  w.local_info.foldl (fun acc l => acc + l.local_tax_withheld) 0

/-- `<W2 as InputForm>::wages` (inputs/w2.rs lines 335–337). -/
def W2.wages (w : W2) : Option Money :=
  some w.box_1_wages

/-- `<W2 as InputForm>::federal_withholding` (inputs/w2.rs lines 339–341). -/
def W2.federal_withholding (w : W2) : Option Money :=
  some w.box_2_federal_tax_withheld

/-- `<W2 as InputForm>::state_withholding` (inputs/w2.rs lines 343–350):
`None` when the summed total `is_zero()`. -/
def W2.state_withholding (w : W2) : Option Money :=
  let total := w.total_state_tax_withheld
  if total = 0 then none else some total

/-- `<W2 as InputForm>::local_withholding` (inputs/w2.rs lines 352–359). -/
def W2.local_withholding (w : W2) : Option Money :=
  let total := w.total_local_tax_withheld
  if total = 0 then none else some total

/-! ## Form 1040 (outputs/form1040.rs)

Only the lines involved in the AGI / taxable-income derivation chain
(lines 9–15) are embedded; the remaining lines of the struct are
pass-through data untouched by `calculate_line_11` / `calculate_line_15`. -/

/-- `Form1040` (outputs/form1040.rs), restricted to lines 9–15. -/
structure Form1040 where
  tax_year : ℕ
  line_9 : Money
  line_10 : Money
  line_11 : Money
  line_12 : Money
  line_13a : Money
  line_13b : Money
  line_14 : Money
  line_15 : Money

/-- `Form1040::calculate_line_11` (outputs/form1040.rs lines 298–301):
`line_11 = line_9.saturating_sub(line_10)`. -/
def Form1040.calculate_line_11 (f : Form1040) : Form1040 :=
  { f with line_11 := saturatingSub f.line_9 f.line_10 }

/-- `Form1040::calculate_line_14` (outputs/form1040.rs lines 304–306). -/
def Form1040.calculate_line_14 (f : Form1040) : Form1040 :=
  { f with line_14 := f.line_12 + f.line_13a + f.line_13b }

/-- `Form1040::calculate_line_15` (outputs/form1040.rs lines 308–311):
`line_15 = line_11.saturating_sub(line_14)`. -/
def Form1040.calculate_line_15 (f : Form1040) : Form1040 :=
  { f with line_15 := saturatingSub f.line_11 f.line_14 }


/-! ## Concrete instances used to evaluate the embedded operations -/

/-- A W-2 with empty identifiers, non-negative boxes and a valid Box-12
entry. -/
def w2ValidExample : W2 where
  id := "w2-default"
  tax_year := 2025
  employer_ein := ""
  employer_name := ""
  employee_ssn := ""
  employee_first_name := ""
  employee_last_name := ""
  box_1_wages := 1000
  box_2_federal_tax_withheld := 100
  box_3_social_security_wages := 1000
  box_4_social_security_tax_withheld := 62
  box_5_medicare_wages := 1000
  box_6_medicare_tax_withheld := 15
  box_7_social_security_tips := 0
  box_8_allocated_tips := 0
  box_10_dependent_care_benefits := 0
  box_11_nonqualified_plans := 0
  box_12 := [⟨"DD", 500⟩]
  box_13_statutory_employee := false
  box_13_retirement_plan := false
  box_13_third_party_sick_pay := false
  state_info := []
  local_info := []

/-- A W-2 with a malformed SSN and negative Box-1 wages. -/
def w2InvalidExample : W2 :=
  { w2ValidExample with employee_ssn := "invalid", box_1_wages := -1 }

/-- A Form 1040 whose adjustments (line 10) exceed total income (line 9). -/
def f1040NegAgi : Form1040 where
  tax_year := 2025
  line_9 := 0
  line_10 := 100
  line_11 := 0
  line_12 := 0
  line_13a := 0
  line_13b := 0
  line_14 := 0
  line_15 := 0

/-- A taxpayer born on January 1, 1961. -/
def taxpayerJan1 : TaxpayerInfo where
  first_name := "Jane"
  last_name := "Doe"
  ssn := "123-45-6789"
  date_of_birth := "1961-01-01"
  is_blind := false

/-- A taxpayer born on June 15, 1960. -/
def taxpayerJun1960 : TaxpayerInfo where
  first_name := "John"
  last_name := "Doe"
  ssn := "123-45-6780"
  date_of_birth := "1960-06-15"
  is_blind := false

/-! ## Helper lemmas -/

theorem saturatingSub_eq_max (a b : Money) : saturatingSub a b = max 0 (a - b) := by
  unfold saturatingSub
  rcases le_or_lt a b with h | h
  · rw [if_neg (not_lt.mpr h), max_eq_left (by linarith)]
  · rw [if_pos h, max_eq_right (by linarith)]

/-- Once the income is at or below the running ceiling, the bracket walk
returns the accumulator unchanged. -/
theorem calcTaxLoop_of_le {income p : Money} (bs : List TaxBracket) (t : Money)
    (h : income ≤ p) : calcTaxLoop income bs p t = t := by
  cases bs with
  | nil => rfl
  | cons b rest => simp [calcTaxLoop, h]

/-- With non-negative rates the bracket walk never decreases the
accumulator. -/
theorem le_calcTaxLoop {income : Money} {bs : List TaxBracket}
    (hr : ∀ b ∈ bs, 0 ≤ b.rate) (p t : Money) :
    t ≤ calcTaxLoop income bs p t := by
  induction bs generalizing p t with
  | nil => simp [calcTaxLoop]
  | cons b rest ih =>
    have hb : 0 ≤ b.rate := hr b (by simp)
    have hrest : ∀ x ∈ rest, 0 ≤ x.rate := fun x hx => hr x (by simp [hx])
    simp only [calcTaxLoop]
    split
    · exact le_refl t
    · refine le_trans ?_ (ih hrest _ _)
      split
      · rename_i hpos
        nlinarith
      · exact le_refl t

/-- With non-negative rates the bracket walk is monotone in the income,
uniformly in the running ceiling and accumulator. -/
theorem calcTaxLoop_mono {a c : Money} (bs : List TaxBracket)
    (hr : ∀ b ∈ bs, 0 ≤ b.rate) (hac : a ≤ c) :
    ∀ p t₁ t₂, t₁ ≤ t₂ → calcTaxLoop a bs p t₁ ≤ calcTaxLoop c bs p t₂ := by
  induction bs with
  | nil => intro p t₁ t₂ ht; simpa [calcTaxLoop] using ht
  | cons b rest ih =>
    intro p t₁ t₂ ht
    have hb : 0 ≤ b.rate := hr b (by simp)
    have hrest : ∀ x ∈ rest, 0 ≤ x.rate := fun x hx => hr x (by simp [hx])
    by_cases h1 : a ≤ p
    · rw [calcTaxLoop, if_pos h1]
      by_cases h2 : c ≤ p
      · rw [calcTaxLoop, if_pos h2]; exact ht
      · rw [calcTaxLoop, if_neg h2]
        refine le_trans ?_ (le_calcTaxLoop hrest _ _)
        split
        · rename_i hpos
          nlinarith
        · exact ht
    · have h2 : ¬ c ≤ p := fun hc => h1 (le_trans hac hc)
      rw [calcTaxLoop, if_neg h1, calcTaxLoop, if_neg h2]
      cases hhi : b.hi with
      | some mx =>
        have hbi : min a mx - p ≤ min c mx - p :=
          sub_le_sub_right (min_le_min_right mx hac) p
        have key : (if 0 < min a mx - p then t₁ + (min a mx - p) * b.rate else t₁) ≤
            (if 0 < min c mx - p then t₂ + (min c mx - p) * b.rate else t₂) := by
          split_ifs with ha hc hc
          · have := mul_le_mul_of_nonneg_right hbi hb
            linarith
          · exact absurd (lt_of_lt_of_le ha hbi) hc
          · nlinarith
          · exact ht
        simpa [hhi] using ih hrest _ _ _ key
      | none =>
        have hpa : 0 < a - p := by linarith [lt_of_not_le h1]
        have hpc : 0 < c - p := by linarith [lt_of_not_le h2]
        simp only [hhi, Option.getD_none]
        rw [if_pos hpa, if_pos hpc,
          calcTaxLoop_of_le rest _ (le_refl a), calcTaxLoop_of_le rest _ (le_refl c)]
        have := mul_le_mul_of_nonneg_right (sub_le_sub_right hac p) hb
        linarith

/-- Every 2025 bracket table has non-negative rates. -/
theorem rates2025_nonneg (status : FilingStatus) :
    ∀ b ∈ rules2025.brackets status, 0 ≤ b.rate := by
  cases status <;>
    · intro b hb
      simp only [rules2025, singleBrackets2025, mfjBrackets2025, mfsBrackets2025,
        hohBrackets2025, List.mem_cons, List.not_mem_nil, or_false] at hb
      rcases hb with rfl | rfl | rfl | rfl | rfl | rfl | rfl <;> norm_num

/-! ## Claims -/

/-- Claim C1: for the 2025 rules and filing status Single, `calculate_tax`
at a taxable income of $50,000 returns exactly $5,914.00, i.e.
10% of $11,925 plus 12% of ($48,475 − $11,925) plus
22% of ($50,000 − $48,475), with no intermediate rounding. -/
theorem c1_calculate_tax_single_50000 :
    calculate_tax rules2025 .Single 50000 =
        11925 * (10/100) + (48475 - 11925) * (12/100) + (50000 - 48475) * (22/100) ∧
      calculate_tax rules2025 .Single 50000 = 5914 := by
  constructor <;>
    · simp only [calculate_tax, rules2025, singleBrackets2025, calcTaxLoop,
        Option.getD_some, min_def]
      norm_num

/-- Claim C8: for every fixed filing status, `calculate_tax` over the 2025
bracket tables is monotonically non-decreasing in taxable income. -/
theorem c8_calculate_tax_monotone (status : FilingStatus) (a c : Money)
    (h : a ≤ c) :
    calculate_tax rules2025 status a ≤ calculate_tax rules2025 status c :=
  calcTaxLoop_mono _ (rates2025_nonneg status) h 0 0 0 (le_refl 0)

/-- Witness for C8 at a concrete pair of incomes. -/
theorem c8_calculate_tax_monotone_witness :
    calculate_tax rules2025 .Single 30000 ≤ calculate_tax rules2025 .Single 60000 :=
  c8_calculate_tax_monotone .Single 30000 60000 (by norm_num)


/-- Claim C6: `RulesLoader::load` returns a rules object for every
supported year; for every unsupported year it fails with an error carrying
the requested year and both bounds of the supported range. -/
theorem c6_rules_loader_load (year : ℕ) :
    (RulesLoader.is_supported year = true → RulesLoader.load year = .ok rules2025) ∧
    (RulesLoader.is_supported year = false →
      RulesLoader.load year =
        .error (.UnsupportedTaxYear year MIN_SUPPORTED_YEAR MAX_SUPPORTED_YEAR)) := by
  constructor
  · intro h
    have hy : year = 2025 := by
      simp only [RulesLoader.is_supported, MIN_SUPPORTED_YEAR, MAX_SUPPORTED_YEAR,
        Bool.and_eq_true, decide_eq_true_eq] at h
      omega
    subst hy
    rfl
  · intro h
    have hy : year ≠ 2025 := by
      intro hc
      subst hc
      simp [RulesLoader.is_supported, MIN_SUPPORTED_YEAR, MAX_SUPPORTED_YEAR] at h
    simp [RulesLoader.load, hy]

/-- Witness for C6: the unsupported year 2020 and the supported year 2025. -/
theorem c6_rules_loader_load_witness :
    RulesLoader.load 2020 = .error (.UnsupportedTaxYear 2020 2025 2025) ∧
    RulesLoader.load 2025 = .ok rules2025 :=
  ⟨(c6_rules_loader_load 2020).2 rfl, (c6_rules_loader_load 2025).1 rfl⟩

/-- Claim C7: a dependent qualifies for the CTC exactly when it is under
17, co-resident at least 6 months, in the qualifying-child relationship
set, and has a non-empty SSN; `qualifies_for_odc` is its exact negation,
so every dependent qualifies for exactly one of the two credits. -/
theorem c7_dependent_credit_eligibility (d : Dependent) :
    (d.qualifies_for_ctc = true ↔
      (d.age < 17 ∧ 6 ≤ d.months_lived_with_taxpayer ∧
        d.relationship ∈ [DependentRelationship.Son, .Daughter, .Stepchild, .FosterChild,
          .Brother, .Sister, .Stepbrother, .Stepsister, .HalfBrother, .HalfSister,
          .Grandchild, .Niece, .Nephew] ∧
        d.ssn ≠ "")) ∧
    d.qualifies_for_odc = !d.qualifies_for_ctc ∧
    ((d.qualifies_for_ctc = true ∧ d.qualifies_for_odc = false) ∨
      (d.qualifies_for_ctc = false ∧ d.qualifies_for_odc = true)) := by
  have hrel : d.is_qualifying_child_relationship = true ↔
      d.relationship ∈ [DependentRelationship.Son, .Daughter, .Stepchild, .FosterChild,
        .Brother, .Sister, .Stepbrother, .Stepsister, .HalfBrother, .HalfSister,
        .Grandchild, .Niece, .Nephew] := by
    unfold Dependent.is_qualifying_child_relationship
    cases d.relationship <;> simp
  have hs : (!d.ssn.isEmpty) = true ↔ d.ssn ≠ "" := by
    rcases hb : d.ssn.isEmpty with _ | _
    · have h0 : d.ssn ≠ "" := by
        intro hc
        rw [hc] at hb
        exact absurd hb (by decide)
      simp [h0]
    · have h0 : d.ssn = "" := (String.isEmpty_iff d.ssn).mp (by rw [hb])
      simp [h0]
  refine ⟨?_, rfl, ?_⟩
  · simp only [Dependent.qualifies_for_ctc, Bool.and_eq_true, decide_eq_true_eq, hrel, hs]
    tauto
  · cases h : d.qualifies_for_ctc <;>
      simp [Dependent.qualifies_for_odc, h]

/-- Claim C10: the W-2 accessors expose a zero state/local withholding
total as `none`, a nonzero total as `some total`, while wages and federal
withholding are always `some`. -/
theorem c10_w2_withholding_accessors (w : W2) :
    (W2.state_withholding w = none ↔ W2.total_state_tax_withheld w = 0) ∧
    (W2.local_withholding w = none ↔ W2.total_local_tax_withheld w = 0) ∧
    W2.state_withholding w =
      (if W2.total_state_tax_withheld w = 0 then none
       else some (W2.total_state_tax_withheld w)) ∧
    W2.local_withholding w =
      (if W2.total_local_tax_withheld w = 0 then none
       else some (W2.total_local_tax_withheld w)) ∧
    W2.wages w = some w.box_1_wages ∧
    W2.federal_withholding w = some w.box_2_federal_tax_withheld := by
  refine ⟨?_, ?_, rfl, rfl, rfl, rfl⟩
  · simp only [W2.state_withholding]
    split_ifs with h <;> simp [h]
  · simp only [W2.local_withholding]
    split_ifs with h <;> simp [h]

/-- The Box-12 validation loop reports nothing when every code is valid. -/
theorem box12Errors_eq_nil {l : List W2Box12}
    (h : ∀ b ∈ l, is_valid_box_12_code b.code = true) :
    ∀ i, box12Errors i l = [] := by
  induction l with
  | nil => intro i; rfl
  | cons b rest ih =>
    intro i
    have hb := h b (by simp)
    simp [box12Errors, hb, ih fun x hx => h x (by simp [hx])]

/-- Claim C9: `W2::validate` skips the SSN and EIN format checks when the
field is empty: with empty identifiers, non-negative boxes 1–3 and only
valid Box-12 codes, validation succeeds. -/
theorem c9_w2_validate_skips_empty_ids (w : W2)
    (hssn : w.employee_ssn = "") (hein : w.employer_ein = "")
    (h1 : ¬ w.box_1_wages < 0) (h2 : ¬ w.box_2_federal_tax_withheld < 0)
    (h3 : ¬ w.box_3_social_security_wages < 0)
    (h12 : ∀ b ∈ w.box_12, is_valid_box_12_code b.code = true) :
    W2.validate w = .ok () := by
  simp [W2.validate, W2.collectValidationErrors, hssn, hein, h1, h2, h3,
    box12Errors_eq_nil h12, validationIntoResult, hasValidationErrors]

/-- Witness for C9 at a concrete W-2. -/
theorem c9_w2_validate_skips_empty_ids_witness :
    W2.validate w2ValidExample = .ok () := by
  refine c9_w2_validate_skips_empty_ids w2ValidExample rfl rfl ?_ ?_ ?_ ?_
  · norm_num [w2ValidExample]
  · norm_num [w2ValidExample]
  · norm_num [w2ValidExample]
  · intro b hb
    simp only [w2ValidExample, List.mem_singleton] at hb
    subst hb
    rfl

/-- Claim C3 is false on the code: `calculate_line_11` floors AGI at zero,
so with adjustments exceeding total income line 11 is 0, not the negative
difference. -/
theorem c3_counterexample :
    ¬ (∀ f : Form1040,
        (Form1040.calculate_line_15 (Form1040.calculate_line_11 f)).line_15 =
            max 0 ((Form1040.calculate_line_11 f).line_11 - f.line_14) ∧
          (Form1040.calculate_line_11 f).line_11 = f.line_9 - f.line_10) := by
  intro h
  have h2 := (h f1040NegAgi).2
  rw [show (Form1040.calculate_line_11 f1040NegAgi).line_11 = 0 from rfl] at h2
  norm_num [f1040NegAgi] at h2

/-- Claim C3 (amended): the floor at zero applies to both derived steps:
after `calculate_line_11` and `calculate_line_15` run, line 15 equals
`max 0 (line 11 − line 14)` and line 11 equals `max 0 (line 9 − line 10)`
(AGI is also floored at zero). -/
theorem c3_amended_agi_also_floored (f : Form1040) :
    (Form1040.calculate_line_15 (Form1040.calculate_line_11 f)).line_15 =
        max 0 ((Form1040.calculate_line_11 f).line_11 - f.line_14) ∧
      (Form1040.calculate_line_11 f).line_11 = max 0 (f.line_9 - f.line_10) := by
  constructor
  · simp [Form1040.calculate_line_15, Form1040.calculate_line_11, saturatingSub_eq_max]
  · simp [Form1040.calculate_line_11, saturatingSub_eq_max]

/-- Claim C5: `W2::validate` accumulates all problems: for a W-2 with a
non-empty malformed SSN and negative Box-1 wages, it returns a single
`InvalidValue` error whose joined message list contains both problems. -/
theorem c5_w2_validate_accumulates (w : W2)
    (hne : w.employee_ssn ≠ "") (hbad : is_valid_ssn w.employee_ssn = false)
    (hneg : w.box_1_wages < 0) :
    ∃ msgs : List String,
      W2.validate w = .error (.InvalidValue "multiple" (String.intercalate "; " msgs)) ∧
      "Invalid SSN format (expected XXX-XX-XXXX)" ∈ msgs ∧
      "Wages cannot be negative" ∈ msgs := by
  have hssnMem : (⟨"employee_ssn", "Invalid SSN format (expected XXX-XX-XXXX)",
      .Error⟩ : ValidationError) ∈ w.collectValidationErrors := by
    unfold W2.collectValidationErrors
    rw [if_pos ⟨hne, hbad⟩]
    simp
  have hwageMem : (⟨"box_1_wages", "Wages cannot be negative",
      .Error⟩ : ValidationError) ∈ w.collectValidationErrors := by
    unfold W2.collectValidationErrors
    rw [if_pos hneg]
    simp
  refine ⟨(w.collectValidationErrors.filter fun e => e.severity = .Error).map
      fun e => e.message, ?_, ?_, ?_⟩
  · unfold W2.validate validationIntoResult
    rw [if_pos]
    exact List.any_eq_true.mpr ⟨_, hssnMem, by simp⟩
  · exact List.mem_map.mpr ⟨_, List.mem_filter.mpr ⟨hssnMem, by simp⟩, rfl⟩
  · exact List.mem_map.mpr ⟨_, List.mem_filter.mpr ⟨hwageMem, by simp⟩, rfl⟩

/-- Witness for C5 at a concrete W-2 with SSN "invalid" and wages −1. -/
theorem c5_w2_validate_accumulates_witness :
    ∃ msgs : List String,
      W2.validate w2InvalidExample =
          .error (.InvalidValue "multiple" (String.intercalate "; " msgs)) ∧
        "Invalid SSN format (expected XXX-XX-XXXX)" ∈ msgs ∧
        "Wages cannot be negative" ∈ msgs :=
  c5_w2_validate_accumulates w2InvalidExample (by decide) (by decide) (by norm_num [w2InvalidExample, w2ValidExample])

/-- Claim C4: whenever the rules define a senior bonus deduction, the
amount `standard_deduction` adds on top of the base and age/blind
increments (what the same computation yields with no senior bonus
defined) is `amount_per_person × count` when `agi` is at or below the
phase-out threshold for the status, and otherwise
`max 0 (amount_per_person × count − rate × (agi − threshold))`, where
`count` counts the taxpayer if 65+ plus the spouse if the status is
MarriedFilingJointly and the spouse is 65+; with no qualifying senior no
bonus is added. -/
theorem c4_standard_deduction_senior_bonus (r : TaxRulesData)
    (bonus : SeniorBonusDeduction) (hb : r.senior_bonus_deduction = some bonus)
    (status : FilingStatus) (t65 tb s65 sb : Bool) (agi : Money) :
    standard_deduction r status t65 tb s65 sb agi =
      standard_deduction { r with senior_bonus_deduction := none }
          status t65 tb s65 sb agi
      + (if ((if t65 then 1 else 0) : ℕ)
            + (if status = .MarriedFilingJointly ∧ s65 then 1 else 0) = 0 then 0
         else if agi ≤ bonus.phase_out.threshold_for status then
           (bonus.amount_per_person : ℚ) *
             ((((if t65 then 1 else 0) : ℕ)
               + (if status = .MarriedFilingJointly ∧ s65 then 1 else 0) : ℕ) : ℚ)
         else
           max 0 ((bonus.amount_per_person : ℚ) *
               ((((if t65 then 1 else 0) : ℕ)
                 + (if status = .MarriedFilingJointly ∧ s65 then 1 else 0) : ℕ) : ℚ)
             - (agi - bonus.phase_out.threshold_for status) * bonus.phase_out.rate)) := by
  simp only [standard_deduction, hb]
  by_cases hc : ((if t65 then 1 else 0) : ℕ)
      + (if status = FilingStatus.MarriedFilingJointly ∧ s65 then 1 else 0) = 0
  · rw [if_pos hc, if_neg (by omega :
      ¬ 0 < ((if t65 then 1 else 0) : ℕ)
        + (if status = FilingStatus.MarriedFilingJointly ∧ s65 then 1 else 0))]
    ring
  · rw [if_neg hc, if_pos (Nat.pos_of_ne_zero hc)]
    by_cases hth : agi ≤ bonus.phase_out.threshold_for status
    · rw [if_pos hth, if_pos hth]
    · rw [if_neg hth, if_neg hth, PhaseOut.reduction, if_neg hth, saturatingSub_eq_max]
      push_cast
      ring

/-- A decimal digit character contributes at most 9. -/
theorem digit_toNat_sub_le {c : Char} (h : c.isDigit = true) : c.toNat - 48 ≤ 9 := by
  unfold Char.isDigit at h
  simp only [Bool.and_eq_true, decide_eq_true_eq] at h
  have h3 : c.val.toNat ≤ 57 := UInt32.le_def.mp h.2
  simp only [Char.toNat]
  omega

/-- Bound for the digit-accumulating fold. -/
theorem digitsVal_foldl_lt {cs : List Char} (h : cs.all Char.isDigit = true) :
    ∀ a : ℕ, cs.foldl (fun n c => n * 10 + (c.toNat - 48)) a < (a + 1) * 10 ^ cs.length := by
  induction cs with
  | nil => intro a; simp
  | cons c rest ih =>
    intro a
    simp only [List.all_cons, Bool.and_eq_true] at h
    have hd : c.toNat - 48 ≤ 9 := digit_toNat_sub_le h.1
    have hi := ih h.2 (a * 10 + (c.toNat - 48))
    have hb : a * 10 + (c.toNat - 48) + 1 + 1 ≤ (a + 1) * 10 + 1 := by omega
    have hp : (0:ℕ) < 10 ^ rest.length := Nat.pos_pow_of_pos _ (by norm_num)
    simp only [List.foldl_cons, List.length_cons]
    calc rest.foldl (fun n c => n * 10 + (c.toNat - 48)) (a * 10 + (c.toNat - 48))
        < (a * 10 + (c.toNat - 48) + 1) * 10 ^ rest.length := hi
      _ ≤ (a + 1) * 10 * 10 ^ rest.length := Nat.mul_le_mul_right _ (by omega)
      _ = (a + 1) * 10 ^ (rest.length + 1) := by ring

/-- An all-digit list denotes a value below `10 ^ length`. -/
theorem digitsVal_lt {cs : List Char} (h : cs.all Char.isDigit = true) :
    digitsVal cs < 10 ^ cs.length := by
  simpa [digitsVal] using digitsVal_foldl_lt h 0

/-- `rustParseNat` succeeds on a non-empty all-digit list within bound. -/
theorem rustParseNat_of_digits {cs : List Char} (hne : cs ≠ [])
    (h : cs.all Char.isDigit = true) {bound : ℕ} (hb : digitsVal cs < bound) :
    rustParseNat cs bound = some (digitsVal cs) := by
  unfold rustParseNat
  have hhead : ¬ cs.head? = some '+' := by
    cases cs with
    | nil => simp
    | cons c rest =>
      simp only [List.head?, Option.some.injEq]
      intro hc
      subst hc
      simp only [List.all_cons, Bool.and_eq_true] at h
      exact absurd h.1 (by decide)
  simp only [if_neg hhead]
  unfold parseNatDigits
  rw [if_pos ⟨hne, h⟩]
  simp [hb]

/-- Claim C2 is false on the code: `age_at_year_end` ignores the birth
month and day, so a taxpayer born 1961-01-01 — whose 65th birthday is
January 1, 2026, on or before January 1 of the year after tax year 2025 —
is not reported as 65 or older for 2025. -/
theorem c2_counterexample :
    ¬ (∀ (t : TaxpayerInfo) (tax_year : ℕ), WellFormedDOB t.date_of_birth →
        (t.is_65_or_older tax_year = true ↔
          (dobYearOf t.date_of_birth + 65 ≤ tax_year ∨
            (dobYearOf t.date_of_birth + 65 = tax_year + 1 ∧
              dobMonthOf t.date_of_birth = 1 ∧ dobDayOf t.date_of_birth = 1)))) := by
  intro h
  exact absurd ((h taxpayerJan1 2025 (by decide)).mpr (by decide)) (by decide)

/-- Claim C2 (amended): for every well-formed `YYYY-MM-DD` date of birth,
`is_65_or_older(tax_year)` is true iff
`(tax_year − birth_year) % 256 ≥ 65` (truncated subtraction, the `u8`
cast of the source): the birth month and day are ignored, so a taxpayer
born on January 1 is treated as turning 65 one year later than the IRS
convention implies. -/
theorem c2_amended_age_ignores_month_day (t : TaxpayerInfo) (tax_year : ℕ)
    (hw : WellFormedDOB t.date_of_birth) :
    (t.is_65_or_older tax_year = true ↔
      65 ≤ (tax_year - dobYearOf t.date_of_birth) % 256) := by
  obtain ⟨hlen, hy, hdash1, hm, hdash2, hd, hm1, hm12, hd1, hd31⟩ := hw
  simp only [dobYearOf, dobMonthOf, dobDayOf] at hm1 hm12 hd1 hd31 ⊢
  have hs1 : sliceGet t.date_of_birth.data 0 4 = some (t.date_of_birth.data.take 4) := by
    unfold sliceGet
    rw [if_pos (by omega)]
    simp
  have hs2 : sliceGet t.date_of_birth.data 5 7 =
      some ((t.date_of_birth.data.drop 5).take 2) := by
    unfold sliceGet
    rw [if_pos (by omega)]
  have hs3 : sliceGet t.date_of_birth.data 8 10 =
      some ((t.date_of_birth.data.drop 8).take 2) := by
    unfold sliceGet
    rw [if_pos (by omega)]
  have hlen4 : (t.date_of_birth.data.take 4).length = 4 := by simp [hlen]
  have hlen2 : ((t.date_of_birth.data.drop 5).take 2).length = 2 := by simp [hlen]
  have hlen2b : ((t.date_of_birth.data.drop 8).take 2).length = 2 := by simp [hlen]
  have hp1 : rustParseNat (t.date_of_birth.data.take 4) 65536 =
      some (digitsVal (t.date_of_birth.data.take 4)) := by
    refine rustParseNat_of_digits ?_ hy ?_
    · intro hnil
      rw [hnil] at hlen4
      simp at hlen4
    · have := digitsVal_lt hy
      rw [hlen4] at this
      omega
  have hp2 : rustParseNat ((t.date_of_birth.data.drop 5).take 2) 256 =
      some (digitsVal ((t.date_of_birth.data.drop 5).take 2)) := by
    refine rustParseNat_of_digits ?_ hm ?_
    · intro hnil
      rw [hnil] at hlen2
      simp at hlen2
    · have := digitsVal_lt hm
      rw [hlen2] at this
      omega
  have hp3 : rustParseNat ((t.date_of_birth.data.drop 8).take 2) 256 =
      some (digitsVal ((t.date_of_birth.data.drop 8).take 2)) := by
    refine rustParseNat_of_digits ?_ hd ?_
    · intro hnil
      rw [hnil] at hlen2b
      simp at hlen2b
    · have := digitsVal_lt hd
      rw [hlen2b] at this
      omega
  unfold TaxpayerInfo.is_65_or_older TaxpayerInfo.age_at_year_end
  simp only [hs1, hp1, hs2, hp2, hs3, hp3, Option.bind_eq_bind, Option.some_bind]
  by_cases hmd : digitsVal ((t.date_of_birth.data.drop 5).take 2) = 12 ∧
      digitsVal ((t.date_of_birth.data.drop 8).take 2) = 31
  · rw [if_pos hmd]
    simp
  · rw [if_neg hmd, if_neg (by omega :
      ¬ 12 < digitsVal ((t.date_of_birth.data.drop 5).take 2))]
    simp

/-- Witness for the amended C2 at a taxpayer born 1960-06-15 and tax year
2025. -/
theorem c2_amended_age_ignores_month_day_witness :
    taxpayerJun1960.is_65_or_older 2025 = true :=
  (c2_amended_age_ignores_month_day taxpayerJun1960 2025 (by decide)).mpr (by decide)

/-- Witness for C4 at the 2025 rules: a 65+ Single filer with AGI below
the phase-out threshold receives the full $6,000 bonus. -/
theorem c4_standard_deduction_senior_bonus_witness :
    standard_deduction rules2025 .Single true false false false 50000 =
      standard_deduction { rules2025 with senior_bonus_deduction := none }
          .Single true false false false 50000 + 6000 := by
  have h := c4_standard_deduction_senior_bonus rules2025 seniorBonus2025 rfl
    .Single true false false false 50000
  norm_num [seniorBonus2025, PhaseOut.threshold_for] at h
  exact h

end HonestTax
